import Mathlib

/-!
Verification of the recallrai Python SDK against its specification.

The repository ships the README, packaging metadata, the release shell
script and an example notebook; the typed client core (transport, error
mapper, resource models) is documented but its Python sources are not in
the tree.  Where a definition embeds that documented core it is modelled
from the spec and says so in its doc comment; the release script
`bump_version.sh` is embedded directly from its source.
-/

namespace RecallrAI

/-- Modelled from the spec: session status wire values
(pending, in_queue, processing, processed, failed). -/
inductive SessionStatus where
  | pending
  | in_queue
  | processing
  | processed
  | failed
deriving DecidableEq, Repr

/-- Modelled from the spec: message roles (user or assistant). -/
inductive MessageRole where
  | user
  | assistant
deriving DecidableEq, Repr

/-- Modelled from the spec: the fixed exception taxonomy of the SDK
(README section Exception Handling), one constructor per leaf kind,
with the kind-specific structured fields the claims mention. -/
inductive RAIException where
  | authenticationError
  | timeoutError
  | connectionError
  | internalServerError
  | rateLimitError (retry_after : Option Nat)
  | userNotFoundError
  | userAlreadyExistsError
  | invalidCategoriesError (invalid_categories : List String)
  | sessionNotFoundError
  | invalidSessionStateError
  | mergeConflictNotFoundError
  | mergeConflictAlreadyResolvedError
  | mergeConflictInvalidQuestionsError (invalid_questions : List String)
  | mergeConflictMissingAnswersError (missing_questions : List String)
  | mergeConflictInvalidAnswerError (question : String) (valid_options : List String)
  | validationError
deriving DecidableEq, Repr

/-- Leaf kinds whose hierarchy parent is NetworkError in the README
exception hierarchy diagram (raised locally, without a server response). -/
def RAIException.isNetworkKind : RAIException → Bool
  | .timeoutError => true
  | .connectionError => true
  | _ => false

/-- Leaf kinds whose hierarchy parent is ServerError in the README
exception hierarchy diagram: InternalServerError and RateLimitError. -/
def RAIException.isServerErrorKind : RAIException → Bool
  | .internalServerError => true
  | .rateLimitError _ => true
  | _ => false

/-- Kinds reporting a problem with the request the client made, i.e. every
kind of the taxonomy that is neither a local network kind nor a server
kind (Authentication, User, Session, MergeConflict and Validation). -/
def RAIException.isClientErrorKind (e : RAIException) : Bool :=
  !e.isNetworkKind && !e.isServerErrorKind

/-- Modelled from the spec: the relevant parts of a non-2xx response body —
an optional server-supplied error code used for finer-grained selection,
an optional human message, and the optional retry-after seconds a 429
response may carry. -/
structure ErrorBody where
  code : Option String
  message : Option String
  retry_after : Option Nat
deriving DecidableEq, Repr

/-- Modelled from the spec: the server-supplied error codes the mapper
recognizes for finer-grained selection inside a 4xx body. -/
def codedException (c : String) : Option RAIException :=
  if c = "user_not_found" then some .userNotFoundError
  else if c = "user_already_exists" then some .userAlreadyExistsError
  else if c = "invalid_categories" then some (.invalidCategoriesError [])
  else if c = "session_not_found" then some .sessionNotFoundError
  else if c = "invalid_session_state" then some .invalidSessionStateError
  else if c = "merge_conflict_not_found" then some .mergeConflictNotFoundError
  else if c = "merge_conflict_already_resolved" then
    some .mergeConflictAlreadyResolvedError
  else none

/-- True when the body carries an error code the mapper recognizes. -/
def recognizedCode (body : ErrorBody) : Bool :=
  match body.code with
  | none => false
  | some c => (codedException c).isSome

/-- Modelled from the spec: `map_error(status_code, body) -> exception`.
Deterministic mapping by status code first (401/403 → Authentication,
429 → RateLimit carrying the retry-after seconds, 5xx → InternalServerError),
then by the error code inside the body, falling back to the generic
client-error kind (ValidationError) when nothing finer matches. -/
def map_error (status : Nat) (body : ErrorBody) : RAIException :=
  if status = 401 ∨ status = 403 then .authenticationError
  else if status = 429 then .rateLimitError body.retry_after
  else if 500 ≤ status then .internalServerError
  else
    match body.code with
    | some c =>
      match codedException c with
      | some e => e
      | none => .validationError
    | none => .validationError

/-- Modelled from the spec: error mapping applied by `get_user`
(GET /users/id): a 404 response always yields UserNotFoundError
(README: Get a User). -/
def mapGetUserError (status : Nat) (body : ErrorBody) : RAIException :=
  if status = 404 then .userNotFoundError else map_error status body

/-- Modelled from the spec: error mapping applied by `create_user`
(user creation): a 409 response always yields UserAlreadyExistsError
(README: Create a User / UserAlreadyExistsError). -/
def mapCreateUserError (status : Nat) (body : ErrorBody) : RAIException :=
  if status = 409 then .userAlreadyExistsError else map_error status body

/-- Claim C1: a 429 response whose body carries retry_after = 30 maps to
RateLimit with retry_after = 30; every 404 response to GET /users/id
yields UserNotFoundError; every 409 response to user creation yields
UserAlreadyExistsError. -/
theorem c1_error_mapper_specific_kinds (body : ErrorBody)
    (h : body.retry_after = some 30) :
    map_error 429 body = .rateLimitError (some 30) ∧
    (∀ b : ErrorBody, mapGetUserError 404 b = .userNotFoundError) ∧
    (∀ b : ErrorBody, mapCreateUserError 409 b = .userAlreadyExistsError) := by
  refine ⟨?_, ?_, ?_⟩
  · simp [map_error, h]
  · intro b
    simp [mapGetUserError]
  · intro b
    simp [mapCreateUserError]

/-- Witness for C1 at a concrete 429 body carrying retry_after = 30 and a
concrete empty body for the 404 and 409 cases. -/
theorem c1_error_mapper_specific_kinds_witness :
    map_error 429 ⟨none, none, some 30⟩ = .rateLimitError (some 30) ∧
    mapGetUserError 404 ⟨none, none, none⟩ = .userNotFoundError ∧
    mapCreateUserError 409 ⟨none, none, none⟩ = .userAlreadyExistsError :=
  ⟨(c1_error_mapper_specific_kinds ⟨none, none, some 30⟩ rfl).1,
    (c1_error_mapper_specific_kinds ⟨none, none, some 30⟩ rfl).2.1
      ⟨none, none, none⟩,
    (c1_error_mapper_specific_kinds ⟨none, none, some 30⟩ rfl).2.2
      ⟨none, none, none⟩⟩

/-- Counterexample for claim C2 as stated: status 429 is a 4xx status, and
on a body with no recognizable error code the mapper produces
RateLimitError, which sits under ServerError in the hierarchy, not under
a client-error kind. -/
theorem c2_counterexample_429_is_server_kind :
    map_error 429 ⟨none, none, none⟩ = .rateLimitError none ∧
    (RAIException.rateLimitError none).isClientErrorKind = false ∧
    (RAIException.rateLimitError none).isServerErrorKind = true := by
  refine ⟨by simp [map_error], rfl, rfl⟩

/-- Claim C2 (amended): map_error is total — every non-2xx status and body
produce exactly one exception of the taxonomy, never a pass-through; when
the body lacks a recognizable error code, every 4xx status other than 429
produces a client-error kind (429 produces RateLimit, a server kind), and
every 5xx status produces a server-error kind. -/
theorem c2_map_error_total_with_family_fallback (s : Nat) (body : ErrorBody)
    (hcode : recognizedCode body = false) :
    (∃! e : RAIException, map_error s body = e) ∧
    (400 ≤ s → s < 500 → s ≠ 429 →
      (map_error s body).isClientErrorKind = true) ∧
    (s = 429 → map_error s body = .rateLimitError body.retry_after) ∧
    (500 ≤ s → (map_error s body).isServerErrorKind = true) := by
  refine ⟨⟨map_error s body, rfl, fun y hy => hy.symm⟩, ?_, ?_, ?_⟩
  · intro h4 h5 hne
    unfold map_error
    by_cases ha : s = 401 ∨ s = 403
    · rw [if_pos ha]
      rfl
    · rw [if_neg ha, if_neg hne, if_neg (by omega : ¬ 500 ≤ s)]
      cases hco : body.code with
      | none => rfl
      | some c =>
        unfold recognizedCode at hcode
        rw [hco] at hcode
        simp only at hcode
        cases h2 : codedException c with
        | none =>
          simp [h2]
          rfl
        | some e => simp [h2] at hcode
  · intro h429
    subst h429
    simp [map_error]
  · intro h5
    unfold map_error
    rw [if_neg (by omega), if_neg (by omega), if_pos h5]
    rfl

/-- Witness for C2 at statuses 404, 429 and 503 with an empty body. -/
theorem c2_map_error_total_with_family_fallback_witness :
    (∃! e : RAIException, map_error 404 ⟨none, none, none⟩ = e) ∧
    (map_error 404 ⟨none, none, none⟩).isClientErrorKind = true ∧
    map_error 429 ⟨none, none, none⟩ = .rateLimitError none ∧
    (map_error 503 ⟨none, none, none⟩).isServerErrorKind = true :=
  ⟨(c2_map_error_total_with_family_fallback 404 ⟨none, none, none⟩ rfl).1,
    (c2_map_error_total_with_family_fallback 404 ⟨none, none, none⟩ rfl).2.1
      (by decide) (by decide) (by decide),
    (c2_map_error_total_with_family_fallback 429 ⟨none, none, none⟩ rfl).2.2.1
      rfl,
    (c2_map_error_total_with_family_fallback 503 ⟨none, none, none⟩ rfl).2.2.2
      (by decide)⟩

/-- Modelled from the spec: a clarifying question of a merge conflict,
with its allowed answer options. -/
structure ClarifyingQuestion where
  question : String
  options : List String
deriving DecidableEq, Repr

/-- Modelled from the spec: one answer submitted to `resolve` — the
question string it answers, the chosen value and an optional message. -/
structure MergeConflictAnswer where
  question : String
  answer : String
  message : Option String
deriving DecidableEq, Repr

/-- Modelled from the spec: the question strings of the submitted answers
that are not among the clarifying questions of the conflict (the
mismatched questions InvalidQuestions reports). -/
def invalidQuestionList (qs : List ClarifyingQuestion)
    (answers : List MergeConflictAnswer) : List String :=
  (answers.map (fun a => a.question)).filter
    (fun q => !(qs.any (fun cq => cq.question = q)))

/-- Modelled from the spec: the clarifying questions of the conflict that
no submitted answer addresses (the list MissingAnswers reports). -/
def missingQuestionList (qs : List ClarifyingQuestion)
    (answers : List MergeConflictAnswer) : List String :=
  (qs.map (fun cq => cq.question)).filter
    (fun q => !(answers.any (fun a => a.question = q)))

/-- Modelled from the spec: the first submitted answer whose value is not
among the allowed options of its question, together with those options. -/
def firstInvalidAnswer (qs : List ClarifyingQuestion)
    (answers : List MergeConflictAnswer) : Option (String × List String) :=
  answers.findSome? (fun a =>
    match qs.find? (fun cq => cq.question = a.question) with
    | some cq =>
      if a.answer ∈ cq.options then none else some (a.question, cq.options)
    | none => none)

/-- Modelled from the spec: the client-side validation `resolve(answers)`
performs before issuing the network call — unknown question strings fail
with InvalidQuestions, unanswered clarifying questions with
MissingAnswers, out-of-option answer values with InvalidAnswer. -/
def validateAnswers (qs : List ClarifyingQuestion)
    (answers : List MergeConflictAnswer) : Option RAIException :=
  if invalidQuestionList qs answers ≠ [] then
    some (.mergeConflictInvalidQuestionsError (invalidQuestionList qs answers))
  else if missingQuestionList qs answers ≠ [] then
    some (.mergeConflictMissingAnswersError (missingQuestionList qs answers))
  else
    match firstInvalidAnswer qs answers with
    | some (q, opts) => some (.mergeConflictInvalidAnswerError q opts)
    | none => none

/-- Modelled from the spec: `resolve(answers)` up to the point of the
network call.  An `.error` outcome is a client-side failure raised before
any request is issued; an `.ok` outcome is the answer payload the SDK
would then send to the server. -/
def resolveRequest (qs : List ClarifyingQuestion)
    (answers : List MergeConflictAnswer) :
    Except RAIException (List MergeConflictAnswer) :=
  match validateAnswers qs answers with
  | some e => .error e
  | none => .ok answers

/-- True when the outcome is a client-side InvalidQuestions failure. -/
def isInvalidQuestionsOutcome :
    Except RAIException (List MergeConflictAnswer) → Bool
  | .error (.mergeConflictInvalidQuestionsError _) => true
  | _ => false

/-- Counterexample for claim C3 as stated: for a conflict with the single
clarifying question Q and an empty answer list, the answer question set
(empty) differs from the conflict question set, yet `resolve` fails with
MissingAnswers, not with InvalidQuestions. -/
theorem c3_counterexample_missing_is_not_invalid_questions :
    resolveRequest [⟨"Q", ["a", "b"]⟩] [] =
      .error (.mergeConflictMissingAnswersError ["Q"]) ∧
    isInvalidQuestionsOutcome (resolveRequest [⟨"Q", ["a", "b"]⟩] []) = false := by
  constructor
  · rfl
  · rfl

/-- Claim C3 (amended): an answer whose question string is not among the
clarifying questions of the conflict makes `resolve` fail with
InvalidQuestions; with all answer questions known, an unanswered
clarifying question makes it fail with MissingAnswers; with the question
sets matching exactly, an answer value outside the allowed options of its
question makes it fail with InvalidAnswer — each detected client-side,
before any network call is issued. -/
theorem c3_resolve_client_side_validation (qs : List ClarifyingQuestion)
    (answers : List MergeConflictAnswer) (q : String) (opts : List String) :
    ((∃ a ∈ answers, ∀ cq ∈ qs, cq.question ≠ a.question) →
      ∃ l, resolveRequest qs answers =
        .error (.mergeConflictInvalidQuestionsError l) ∧ l ≠ []) ∧
    ((∀ a ∈ answers, ∃ cq ∈ qs, cq.question = a.question) →
      (∃ cq ∈ qs, ∀ a ∈ answers, a.question ≠ cq.question) →
      ∃ l, resolveRequest qs answers =
        .error (.mergeConflictMissingAnswersError l) ∧ l ≠ []) ∧
    ((∀ a ∈ answers, ∃ cq ∈ qs, cq.question = a.question) →
      (∀ cq ∈ qs, ∃ a ∈ answers, a.question = cq.question) →
      firstInvalidAnswer qs answers = some (q, opts) →
      resolveRequest qs answers =
        .error (.mergeConflictInvalidAnswerError q opts)) := by
  refine ⟨?_, ?_, ?_⟩
  · rintro ⟨a, ha, hnone⟩
    have hinv : invalidQuestionList qs answers ≠ [] := by
      have hmem : a.question ∈ invalidQuestionList qs answers := by
        unfold invalidQuestionList
        rw [List.mem_filter]
        refine ⟨List.mem_map_of_mem _ ha, ?_⟩
        simp only [Bool.not_eq_true', List.any_eq_false, decide_eq_true_eq]
        intro cq hcq
        exact hnone cq hcq
      intro hnil
      rw [hnil] at hmem
      exact List.not_mem_nil _ hmem
    refine ⟨invalidQuestionList qs answers, ?_, hinv⟩
    unfold resolveRequest validateAnswers
    rw [if_pos hinv]
  · intro hall ⟨cq, hcq, hunanswered⟩
    have hinv : invalidQuestionList qs answers = [] := by
      unfold invalidQuestionList
      rw [List.filter_eq_nil_iff]
      intro q hq
      obtain ⟨a, ha, rfl⟩ := List.mem_map.mp hq
      obtain ⟨cq2, hcq2, heq⟩ := hall a ha
      simp only [Bool.not_eq_true', Bool.not_eq_false, List.any_eq_true,
        decide_eq_true_eq]
      exact ⟨cq2, hcq2, heq⟩
    have hmiss : missingQuestionList qs answers ≠ [] := by
      have hmem : cq.question ∈ missingQuestionList qs answers := by
        unfold missingQuestionList
        rw [List.mem_filter]
        refine ⟨List.mem_map_of_mem _ hcq, ?_⟩
        simp only [Bool.not_eq_true', List.any_eq_false, decide_eq_true_eq]
        intro a ha
        exact hunanswered a ha
      intro hnil
      rw [hnil] at hmem
      exact List.not_mem_nil _ hmem
    refine ⟨missingQuestionList qs answers, ?_, hmiss⟩
    unfold resolveRequest validateAnswers
    rw [if_neg (by simpa using hinv), if_pos hmiss]
  · intro hall hcovered hfirst
    have hinv : invalidQuestionList qs answers = [] := by
      unfold invalidQuestionList
      rw [List.filter_eq_nil_iff]
      intro q hq
      obtain ⟨a, ha, rfl⟩ := List.mem_map.mp hq
      obtain ⟨cq2, hcq2, heq⟩ := hall a ha
      simp only [Bool.not_eq_true', Bool.not_eq_false, List.any_eq_true,
        decide_eq_true_eq]
      exact ⟨cq2, hcq2, heq⟩
    have hmiss : missingQuestionList qs answers = [] := by
      unfold missingQuestionList
      rw [List.filter_eq_nil_iff]
      intro q hq
      obtain ⟨cq2, hcq2, rfl⟩ := List.mem_map.mp hq
      obtain ⟨a, ha, heq⟩ := hcovered cq2 hcq2
      simp only [Bool.not_eq_true', Bool.not_eq_false, List.any_eq_true,
        decide_eq_true_eq]
      exact ⟨a, ha, heq⟩
    unfold resolveRequest validateAnswers
    rw [if_neg (by simpa using hinv), if_neg (by simpa using hmiss), hfirst]

/-- Witness for C3: a conflict with the single clarifying question Q and
one answer addressing the unknown question R fails with InvalidQuestions
before the network call. -/
theorem c3_resolve_client_side_validation_witness :
    isInvalidQuestionsOutcome
      (resolveRequest [⟨"Q", ["a", "b"]⟩] [⟨"R", "a", none⟩]) = true := by
  obtain ⟨l, hl, -⟩ :=
    (c3_resolve_client_side_validation [⟨"Q", ["a", "b"]⟩] [⟨"R", "a", none⟩]
      "" []).1 (by decide)
  rw [hl]
  rfl

/-- Modelled from the spec: outcome of `session.add_message(role, content)`
as a function of the session status on the server — the operation succeeds
while the status is pending and fails with InvalidSessionStateError once
the status has left pending. -/
def addMessage (status : SessionStatus) (role : MessageRole)
    (content : String) : Except RAIException (MessageRole × String) :=
  match status with
  | .pending => .ok (role, content)
  | _ => .error .invalidSessionStateError

/-- Claim C4: for a session whose status is processed or failed,
add_message fails with the InvalidState kind; for a pending session it
always succeeds. -/
theorem c4_add_message_state_machine (role : MessageRole) (content : String) :
    addMessage .processed role content = .error .invalidSessionStateError ∧
    addMessage .failed role content = .error .invalidSessionStateError ∧
    addMessage .pending role content = .ok (role, content) := by
  exact ⟨rfl, rfl, rfl⟩

/-- Modelled from the spec: `session.process()` as a transition of the
server-side session status — a pending session moves to in_queue; any
other status is left unchanged and the call fails with
InvalidSessionStateError. -/
def processSession (status : SessionStatus) :
    SessionStatus × Option RAIException :=
  match status with
  | .pending => (.in_queue, none)
  | st => (st, some .invalidSessionStateError)

/-- Claim C5: process() on a pending session transitions the status to
in_queue; on an already-processing or terminal session it fails with the
InvalidState kind and performs no transition. -/
theorem c5_process_transitions (st : SessionStatus) (h : st ≠ .pending) :
    processSession .pending = (.in_queue, none) ∧
    processSession st = (st, some .invalidSessionStateError) := by
  refine ⟨rfl, ?_⟩
  cases st with
  | pending => exact absurd rfl h
  | in_queue => rfl
  | processing => rfl
  | processed => rfl
  | failed => rfl

/-- Witness for C5 at the terminal status processed. -/
theorem c5_process_transitions_witness :
    processSession .pending = (.in_queue, none) ∧
    processSession .processed =
      (.processed, some RAIException.invalidSessionStateError) :=
  c5_process_transitions .processed (by decide)

/-- Modelled from the spec: the paginated wrapper every list endpoint
returns — ordered items, total count, and the server-computed has_more. -/
structure PaginatedList (α : Type) where
  items : List α
  total : Nat
  has_more : Bool
deriving Repr

/-- Modelled from the spec: the server-side semantics of a list endpoint
over a remote collection — the page is the window of the collection at
offset of size at most limit, total is the collection size, and has_more
says whether items of the collection remain past this window. -/
def listPage {α : Type} (collection : List α) (offset limit : Nat) :
    PaginatedList α :=
  { items := (collection.drop offset).take limit
    total := collection.length
    has_more := decide (offset + limit < collection.length) }

/-- Claim C6: over an unmodified remote collection (whose entries are
pairwise distinct), the pages (offset 0, limit N) and (offset N, limit N)
share no item, and in every returned page has_more is false exactly when
offset + items.length ≥ total. -/
theorem c6_pagination (coll : List String) (N : Nat) (hnd : coll.Nodup) :
    (∀ x ∈ (listPage coll 0 N).items, x ∉ (listPage coll N N).items) ∧
    (∀ offset limit : Nat,
      ((listPage coll offset limit).has_more = false ↔
        (listPage coll offset limit).total ≤
          offset + (listPage coll offset limit).items.length)) := by
  constructor
  · intro x hx hx2
    have h1 : x ∈ coll.take N := by
      simpa [listPage] using hx
    have h2 : x ∈ coll.drop N := by
      have := hx2
      simp only [listPage] at this
      exact List.take_subset _ _ this
    exact List.disjoint_take_drop hnd (Nat.le_refl N) h1 h2
  · intro offset limit
    simp only [listPage, List.length_take, List.length_drop,
      decide_eq_false_iff_not, Nat.not_lt]
    omega

/-- Witness for C6 on a concrete three-element collection with page size
two: the item u1 of the first page is absent from the second page, and
has_more of the second page obeys the stated equivalence. -/
theorem c6_pagination_witness :
    "u1" ∉ (listPage ["u1", "u2", "u3"] 2 2).items ∧
    ((listPage ["u1", "u2", "u3"] 2 2).has_more = false ↔
      (listPage ["u1", "u2", "u3"] 2 2).total ≤
        2 + (listPage ["u1", "u2", "u3"] 2 2).items.length) :=
  ⟨(c6_pagination ["u1", "u2", "u3"] 2 (by decide)).1 "u1" (by decide),
    (c6_pagination ["u1", "u2", "u3"] 2 (by decide)).2 2 2⟩

/-- Modelled from the spec: the mutable fields of a User handle. -/
structure UserFields where
  user_id : String
  metadata : List (String × String)
deriving DecidableEq, Repr

/-- Modelled from the spec: the optional arguments of `user.update` — only
the provided ones are sent. -/
structure UpdateParams where
  new_user_id : Option String
  new_metadata : Option (List (String × String))
deriving DecidableEq, Repr

/-- Modelled from the spec: the field names `update` places in the partial
update request body — exactly the arguments the caller provided. -/
def sentFields (p : UpdateParams) : List String :=
  (if p.new_user_id.isSome then ["new_user_id"] else []) ++
  (if p.new_metadata.isSome then ["new_metadata"] else [])

/-- Modelled from the spec: the field values of a handle after a
successful partial update — provided fields are overwritten, omitted
fields keep their values. -/
def applyUpdate (f : UserFields) (p : UpdateParams) : UserFields :=
  { user_id := p.new_user_id.getD f.user_id
    metadata := p.new_metadata.getD f.metadata }

/-- A store of live handle objects: handle identity to current fields.
Several references may share one identity (aliases of one Python object). -/
def HandleStore : Type :=
  Nat → UserFields

/-- Modelled from the spec: a successful `update` mutates the fields of
the existing handle object in place — the store changes at the identity
of the updated handle and nowhere else — and returns no new object. -/
def updateInPlace (σ : HandleStore) (h : Nat) (p : UpdateParams) :
    HandleStore :=
  fun r => if r = h then applyUpdate (σ h) p else σ r

/-- Claim C7: update sends only the fields the caller provided, and on
success mutates the handle in place, so every reference aliasing the
updated handle observes the new fields while every other handle is
untouched. -/
theorem c7_update_partial_and_in_place (σ : HandleStore) (h : Nat)
    (p : UpdateParams) :
    ("new_user_id" ∈ sentFields p ↔ p.new_user_id.isSome = true) ∧
    ("new_metadata" ∈ sentFields p ↔ p.new_metadata.isSome = true) ∧
    (∀ r : Nat, r = h → updateInPlace σ h p r = applyUpdate (σ h) p) ∧
    (∀ r : Nat, r ≠ h → updateInPlace σ h p r = σ r) := by
  refine ⟨?_, ?_, ?_, ?_⟩
  · cases hu : p.new_user_id <;> cases hm : p.new_metadata <;>
      simp [sentFields, hu, hm]
  · cases hu : p.new_user_id <;> cases hm : p.new_metadata <;>
      simp [sentFields, hu, hm]
  · intro r hr
    simp [updateInPlace, hr]
  · intro r hr
    simp [updateInPlace, hr]

/-- Witness for C7: a store of two handles, updating handle 0 with a new
metadata mapping only. -/
theorem c7_update_partial_and_in_place_witness :
    ("new_user_id" ∈ sentFields ⟨none, some [("role", "admin")]⟩ ↔
      (none : Option String).isSome = true) ∧
    updateInPlace (fun _ => ⟨"u1", []⟩) 0 ⟨none, some [("role", "admin")]⟩ 0 =
      applyUpdate ⟨"u1", []⟩ ⟨none, some [("role", "admin")]⟩ ∧
    updateInPlace (fun _ => ⟨"u1", []⟩) 0 ⟨none, some [("role", "admin")]⟩ 1 =
      ⟨"u1", []⟩ :=
  ⟨(c7_update_partial_and_in_place (fun _ => ⟨"u1", []⟩) 0
      ⟨none, some [("role", "admin")]⟩).1,
    (c7_update_partial_and_in_place (fun _ => ⟨"u1", []⟩) 0
      ⟨none, some [("role", "admin")]⟩).2.2.1 0 rfl,
    (c7_update_partial_and_in_place (fun _ => ⟨"u1", []⟩) 0
      ⟨none, some [("role", "admin")]⟩).2.2.2 1 (by decide)⟩

/-- Modelled from the spec: an expired prior version of a memory as
reported in previous_versions. -/
structure MemoryVersionInfo where
  version_number : Nat
  content : String
deriving DecidableEq, Repr

/-- Modelled from the spec: the wire fields of a memory item the claims
concern. -/
structure Memory where
  content : String
  version_number : Nat
  total_versions : Nat
  previous_versions : Option (List MemoryVersionInfo)
deriving DecidableEq, Repr

/-- Modelled from the spec: has_previous_versions indicates whether
total_versions exceeds one (README: Memory Item Fields). -/
def Memory.has_previous_versions (m : Memory) : Bool :=
  decide (1 < m.total_versions)

/-- Modelled from the spec: the previous_versions list derived from a
version history (ordered oldest first) — every version except the last,
numbered from one. -/
def previousVersionInfos (history : List String) : List MemoryVersionInfo :=
  history.dropLast.enum.map (fun vc => ⟨vc.1 + 1, vc.2⟩)

/-- Modelled from the spec: the memory item the server reports for a
nonempty version history — the current (last) version with its position
and the total count, carrying previous_versions when the listing asked
for them. -/
def memoryFromHistory (history : List String) (includePrev : Bool) : Memory :=
  { content := history.getLastD ""
    version_number := history.length
    total_versions := history.length
    previous_versions :=
      if includePrev then some (previousVersionInfos history) else none }

/-- Claim C8: every memory record satisfies version_number ≤
total_versions; when previous_versions is present its length is
total_versions − 1; has_previous_versions holds exactly when
total_versions exceeds one. -/
theorem c8_memory_version_invariants (history : List String)
    (includePrev : Bool) (_hne : history ≠ []) :
    (memoryFromHistory history includePrev).version_number ≤
      (memoryFromHistory history includePrev).total_versions ∧
    (∀ pv, (memoryFromHistory history includePrev).previous_versions =
        some pv →
      pv.length = (memoryFromHistory history includePrev).total_versions - 1) ∧
    ((memoryFromHistory history includePrev).has_previous_versions = true ↔
      1 < (memoryFromHistory history includePrev).total_versions) := by
  refine ⟨Nat.le_refl _, ?_, ?_⟩
  · intro pv hpv
    simp only [memoryFromHistory] at hpv ⊢
    cases includePrev with
    | false => simp at hpv
    | true =>
      simp only [if_true, Option.some.injEq] at hpv
      rw [← hpv]
      simp [previousVersionInfos, List.length_dropLast]
  · simp [Memory.has_previous_versions, memoryFromHistory]

/-- Witness for C8 on a two-version history with previous versions
included: the single previous version satisfies the length equation. -/
theorem c8_memory_version_invariants_witness :
    (memoryFromHistory ["likes tea", "likes coffee"] true).version_number ≤
      (memoryFromHistory ["likes tea", "likes coffee"] true).total_versions ∧
    ([(⟨1, "likes tea"⟩ : MemoryVersionInfo)].length =
      (memoryFromHistory ["likes tea", "likes coffee"]
        true).total_versions - 1) ∧
    ((memoryFromHistory ["likes tea", "likes coffee"]
        true).has_previous_versions = true ↔
      1 < (memoryFromHistory ["likes tea", "likes coffee"]
        true).total_versions) :=
  ⟨(c8_memory_version_invariants ["likes tea", "likes coffee"] true
      (by decide)).1,
    (c8_memory_version_invariants ["likes tea", "likes coffee"] true
      (by decide)).2.1 [⟨1, "likes tea"⟩] rfl,
    (c8_memory_version_invariants ["likes tea", "likes coffee"] true
      (by decide)).2.2⟩

end RecallrAI

namespace ReleaseScript

/-- Splitting a character list at every occurrence of a separator, as the
IFS based splitting and the cut field extraction of bump_version.sh do. -/
def splitOnChar (sep : Char) : List Char → List (List Char)
  | [] => [[]]
  | c :: cs =>
    if c = sep then [] :: splitOnChar sep cs
    else
      match splitOnChar sep cs with
      | [] => [[c]]
      | h :: t => (c :: h) :: t

/-- Numeric value of a decimal digit character. -/
def digitVal (c : Char) : Nat :=
  c.toNat - 48

/-- A character list read as a decimal number — some only when it is
nonempty and all digits. -/
def parseNat? (cs : List Char) : Option Nat :=
  if cs ≠ [] ∧ cs.all (fun c => c.isDigit) then
    some (cs.foldl (fun n c => n * 10 + digitVal c) 0)
  else none

/-- bump_version.sh lines 48-51: CURRENT_VERSION split on dots into the
MAJOR, MINOR and PATCH components, each read as a number.  Bash arithmetic
coercion of malformed components is not modelled; the claims quantify
only over numeric M.m.P versions, for which this parse succeeds. -/
def readVersionParts (cur : List Char) : Option (Nat × Nat × Nat) :=
  match splitOnChar '.' cur with
  | [a, b, c] =>
    match parseNat? a, parseNat? b, parseNat? c with
    | some M, some m, some P => some (M, m, P)
    | _, _, _ => none
  | _ => none

/-- Decimal digit characters of a number, as bash substitutes it. -/
def natChars (n : Nat) : List Char :=
  (Nat.repr n).data

/-- bump_version.sh line 65: the NEW_VERSION string MAJOR.MINOR.PATCH. -/
def renderVersion (M m P : Nat) : List Char :=
  natChars M ++ '.' :: natChars m ++ '.' :: natChars P

/-- bump_version.sh line 26: the bump type validation regex. -/
def validPart (part : List Char) : Bool :=
  part == "major".data || part == "minor".data || part == "patch".data

/-- bump_version.sh lines 54-63: the version components after the bump.
The identity fallback is unreachable because the part was validated. -/
def bumpParts (part : List Char) (M m P : Nat) : Nat × Nat × Nat :=
  if part == "major".data then (M + 1, 0, 0)
  else if part == "minor".data then (M, m + 1, 0)
  else if part == "patch".data then (M, m, P + 1)
  else (M, m, P)

/-- The remaining input after a literal, or none when the input does not
start with that literal. -/
def afterLiteral : List Char → List Char → Option (List Char)
  | [], rest => some rest
  | _, [] => none
  | p :: ps, c :: cs => if c = p then afterLiteral ps cs else none

/-- bump_version.sh line 44, the grep regex: the line starts with the
literal text of a version assignment, followed by at least one non-quote
character and a closing quote. -/
def versionLineMatch (l : List Char) : Bool :=
  match afterLiteral ("version = \"".data) l with
  | none => false
  | some rest =>
    decide (rest.takeWhile (fun c => c ≠ '"') ≠ []) &&
      rest.any (fun c => c = '"')

/-- bump_version.sh line 44, cut -f2 with the quote delimiter: the second
quote-delimited field of the line. -/
def secondQuoteField (l : List Char) : List Char :=
  (splitOnChar '"' l).getD 1 []

/-- bump_version.sh line 44: CURRENT_VERSION — the first pyproject.toml
line matching the version regex, cut to its second quote field.  none
when no line matches: grep then fails and set -e aborts the script before
any modification. -/
def readCurrentVersion (lines : List (List Char)) : Option (List Char) :=
  (lines.find? versionLineMatch).map secondQuoteField

/-- The git working tree facts the script can observe: whether tracked
files carry unstaged modifications — which is all that the git diff
--quiet check on line 38 reports — and whether the index holds staged but
uncommitted changes, which that check does not see. -/
structure GitState where
  unstagedChanges : Bool
  stagedChanges : Bool
deriving DecidableEq, Repr

/-- One sed -i replacement performed by the script: the file it rewrites
and the replacement text carrying the new version. -/
structure FileWrite where
  path : List Char
  text : List Char
deriving DecidableEq, Repr

/-- Outcome of a run of bump_version.sh, abstracted to its exit code, the
sed file rewrites it performed, and the git tag it created. -/
structure ScriptResult where
  exitCode : Nat
  writes : List FileWrite
  tag : Option (List Char)
deriving DecidableEq, Repr

/-- bump_version.sh line 69: the sed replacement written into
pyproject.toml, embedding NEW_VERSION. -/
def pyprojectWrite (nv : List Char) : FileWrite :=
  ⟨"pyproject.toml".data, "version = \"".data ++ nv ++ ['"']⟩

/-- bump_version.sh line 73: the sed replacement written into
recallrai/__init__.py, embedding NEW_VERSION. -/
def initWrite (nv : List Char) : FileWrite :=
  ⟨"recallrai/__init__.py".data, "__version__ = \"".data ++ nv ++ ['"']⟩

/-- bump_version.sh as a function of its arguments, the observed git
state and the pyproject.toml lines: the argument-count check (line 17),
the bump type validation (line 26), the git diff --quiet check (line 38),
the version read (line 44), the bump (lines 48-65), then the two sed
rewrites (lines 69-73) and the tag v NEW_VERSION (line 82).  The later
git commit and push calls do not modify the two version files and are
not modelled. -/
def runRelease (args : List (List Char)) (git : GitState)
    (pyprojectLines : List (List Char)) : ScriptResult :=
  match args with
  | [] => ⟨1, [], none⟩
  | part :: _ =>
    if !validPart part then ⟨1, [], none⟩
    else if git.unstagedChanges then ⟨1, [], none⟩
    else
      match readCurrentVersion pyprojectLines with
      | none => ⟨1, [], none⟩
      | some cur =>
        match readVersionParts cur with
        | none => ⟨1, [], none⟩
        | some (M, m, P) =>
          let b := bumpParts part M m P
          let nv := renderVersion b.1 b.2.1 b.2.2
          ⟨0, [pyprojectWrite nv, initWrite nv], some ('v' :: nv)⟩

/-- Claim C9: for a current version M.m.P read from pyproject.toml, the
script computes the bumped version per bump type — major gives (M+1).0.0,
minor gives M.(m+1).0, patch gives M.m.(P+1) — and writes that same
version string into pyproject.toml, into recallrai/__init__.py and into
the tag name v followed by the new version. -/
theorem c9_release_bumps_and_writes_version (M m P : Nat) (part : List Char)
    (rest : List (List Char)) (git : GitState) (lines : List (List Char))
    (cur : List Char) (hgit : git.unstagedChanges = false)
    (hread : readCurrentVersion lines = some cur)
    (hparse : readVersionParts cur = some (M, m, P)) :
    (part = "major".data →
      runRelease (part :: rest) git lines =
        ⟨0, [pyprojectWrite (renderVersion (M + 1) 0 0),
             initWrite (renderVersion (M + 1) 0 0)],
          some ('v' :: renderVersion (M + 1) 0 0)⟩) ∧
    (part = "minor".data →
      runRelease (part :: rest) git lines =
        ⟨0, [pyprojectWrite (renderVersion M (m + 1) 0),
             initWrite (renderVersion M (m + 1) 0)],
          some ('v' :: renderVersion M (m + 1) 0)⟩) ∧
    (part = "patch".data →
      runRelease (part :: rest) git lines =
        ⟨0, [pyprojectWrite (renderVersion M m (P + 1)),
             initWrite (renderVersion M m (P + 1))],
          some ('v' :: renderVersion M m (P + 1))⟩) := by
  refine ⟨?_, ?_, ?_⟩ <;> intro hp <;> subst hp <;>
    simp [runRelease, validPart, bumpParts, hgit, hread, hparse]

/-- The first lines of the pyproject.toml of the repository, which carry
version 0.2.0. -/
def pyLines : List (List Char) :=
  ["[tool.poetry]".data, "name = \"recallrai\"".data,
    "version = \"0.2.0\"".data]

/-- Witness for C9: a patch release over the pyproject.toml of the
repository at version 0.2.0 writes 0.2.1 everywhere and tags v0.2.1. -/
theorem c9_release_bumps_and_writes_version_witness :
    runRelease ["patch".data] ⟨false, false⟩ pyLines =
      ⟨0, [pyprojectWrite (renderVersion 0 2 1), initWrite (renderVersion 0 2 1)],
        some ('v' :: renderVersion 0 2 1)⟩ :=
  (c9_release_bumps_and_writes_version 0 2 0 "patch".data [] ⟨false, false⟩
    pyLines ("0.2.0".data) rfl (by decide) (by decide)).2.2 rfl

/-- Counterexample for claim C10 as stated: with staged but uncommitted
changes (and a clean working tree relative to the index), the git diff
--quiet check passes, so the script proceeds, modifies both version files
and exits successfully instead of exiting non-zero without modification. -/
theorem c10_counterexample_staged_changes_not_detected :
    (⟨false, true⟩ : GitState).stagedChanges = true ∧
    (runRelease ["patch".data] ⟨false, true⟩ pyLines).exitCode = 0 ∧
    (runRelease ["patch".data] ⟨false, true⟩ pyLines).writes ≠ [] := by
  refine ⟨rfl, by decide, by decide⟩

/-- Claim C10 (amended): if the bump type argument is absent or not one of
major, minor, patch, or tracked files carry unstaged modifications — the
condition the git diff --quiet check on line 38 reports — the script
exits with status 1 before performing any file write; staged but
uncommitted changes are not detected. -/
theorem c10_guards_exit_before_writes (args : List (List Char))
    (git : GitState) (lines : List (List Char)) :
    (args = [] → runRelease args git lines = ⟨1, [], none⟩) ∧
    (∀ part rest, args = part :: rest → validPart part = false →
      runRelease args git lines = ⟨1, [], none⟩) ∧
    (∀ part rest, args = part :: rest → git.unstagedChanges = true →
      runRelease args git lines = ⟨1, [], none⟩) := by
  refine ⟨?_, ?_, ?_⟩
  · rintro rfl
    rfl
  · rintro part rest rfl hv
    simp [runRelease, hv]
  · rintro part rest rfl hg
    cases hv : validPart part <;> simp [runRelease, hv, hg]

/-- Witness for C10 on each guard: no argument, the invalid bump type
bogus, and unstaged changes with a valid bump type. -/
theorem c10_guards_exit_before_writes_witness :
    runRelease [] ⟨false, false⟩ pyLines = ⟨1, [], none⟩ ∧
    runRelease ["bogus".data] ⟨false, false⟩ pyLines = ⟨1, [], none⟩ ∧
    runRelease ["patch".data] ⟨true, false⟩ pyLines = ⟨1, [], none⟩ :=
  ⟨(c10_guards_exit_before_writes [] ⟨false, false⟩ pyLines).1 rfl,
    (c10_guards_exit_before_writes ["bogus".data] ⟨false, false⟩ pyLines).2.1
      ("bogus".data) [] rfl (by decide),
    (c10_guards_exit_before_writes ["patch".data] ⟨true, false⟩ pyLines).2.2
      ("patch".data) [] rfl rfl⟩

end ReleaseScript
